import Mathlib

/-!
Shallow embedding of `src/utils/getNearestStation.js` from the
`moped-tracker` repository, together with theorems checking the
natural-language specification of the geospatial proximity and routing
utility layer against the code.

Modelling conventions:

* JavaScript numbers are idealised as real numbers (`ℝ`) in the geometric
  code, and as rationals (`ℚ`) in the display formatter, where exact
  evaluation on concrete inputs is needed.
* A possibly-`undefined` JavaScript value is an `Option`.
* JavaScript truthiness: the number `0` and the empty string are falsy;
  `x || y` evaluates to `x` when `x` is truthy and to `y` otherwise.
* The OSM `tags` object is modelled by the record `Tags` holding exactly
  the six keys the module reads; a key absent from the mapping is `none`.
* The two network calls are abstracted by passing the already-received
  response as an explicit argument of type `FetchResult`:
  `transportError` models a rejected `fetch` promise, `httpResponse ok
  body` a settled response with `response.ok = ok`, where `body = none`
  models a payload that fails to parse into the expected shape.  Every
  `throw` inside the `try` block lands in the `catch`, whose return value
  the corresponding branch produces directly.
* `Array.prototype.sort` with comparator `(a, b) => a.distance - b.distance`
  is a stable sort by nondecreasing `distance`; every stable sort by a
  total preorder key computes the same list, modelled here by
  `List.insertionSort`.
-/

namespace MopedTracker

/-- The OSM tag fields read by the module.  A field whose key is absent
from the raw `tags` mapping is `none`; `some ""` is a key that is present
but maps to the empty string (which JavaScript treats as falsy). -/
structure Tags where
  name : Option String
  brand : Option String
  operator : Option String
  housenumber : Option String
  street : Option String
  city : Option String
deriving DecidableEq

/-- JavaScript truthiness filter used by the `if (tags[k]) parts.push(tags[k])`
lines: keeps the value exactly when it is present and truthy (nonempty). -/
def truthyVal : Option String → Option String
  | some s => if s = "" then none else some s
  | none => none

/-- Embeds `formatAddress` (src/utils/getNearestStation.js:117-126).
If `tags` is `undefined` it returns `null`; otherwise it pushes each of
`addr:housenumber`, `addr:street`, `addr:city` in that order when truthy
and joins the parts with `", "`, returning `null` when no part was pushed. -/
def formatAddress (tags : Option Tags) : Option String :=
  match tags with
  | none => none
  | some t =>
    let parts := [t.housenumber, t.street, t.city].filterMap truthyVal
    if parts.isEmpty then none else some (String.intercalate ", " parts)

/-- The address formatter as claim C1 words it: concatenates exactly those
of the three address keys that are present (regardless of their value),
in the fixed order housenumber, street, city, joined by `", "`, and is
absent when none of the three keys is present. -/
def formatAddressClaimed (tags : Option Tags) : Option String :=
  match tags with
  | none => none
  | some t =>
    let parts := [t.housenumber, t.street, t.city].filterMap id
    if parts.isEmpty then none else some (String.intercalate ", " parts)

/-- Pushing truthy values is the same as collecting the present values and
then discarding the empty strings. -/
lemma filterMap_truthyVal (l : List (Option String)) :
    l.filterMap truthyVal = (l.filterMap id).filter (fun s => s ≠ "") := by
  induction l with
  | nil => rfl
  | cons o t ih =>
    cases o with
    | none => simpa [truthyVal] using ih
    | some s =>
      by_cases h : s = "" <;>
        simp [truthyVal, h, ih, List.filter_cons]

/-- Claim C1, counterexample: a `tags` mapping in which the key
`addr:housenumber` is present but maps to the empty string.  The claim as
stated concatenates every present key, producing the string `""`, but the
code tests JavaScript truthiness, skips the empty value, and returns
`null`. -/
theorem formatAddress_empty_value_counterexample :
    formatAddress
        (some { name := none, brand := none, operator := none,
                housenumber := some "", street := none, city := none }) = none ∧
    formatAddressClaimed
        (some { name := none, brand := none, operator := none,
                housenumber := some "", street := none, city := none }) = some "" ∧
    formatAddress
        (some { name := none, brand := none, operator := none,
                housenumber := some "", street := none, city := none }) ≠
      formatAddressClaimed
        (some { name := none, brand := none, operator := none,
                housenumber := some "", street := none, city := none }) := by
  refine ⟨rfl, rfl, ?_⟩
  decide

/-- Claim C1 (amended): `formatAddress` returns absent on an absent `tags`
mapping; otherwise it concatenates, in the fixed order housenumber then
street then city, exactly those of the three address keys that are present
with a nonempty value, joined by `", "`, returning absent when no such key
exists; in particular a mapping with housenumber `"5"` and street
`"Main St"` formats to `"5, Main St"`. -/
theorem formatAddress_spec :
    formatAddress none = none ∧
    (∀ t : Tags,
      formatAddress (some t) =
        (let present := ([t.housenumber, t.street, t.city].filterMap id).filter
            (fun s => s ≠ "")
         if present.isEmpty then none else some (String.intercalate ", " present))) ∧
    formatAddress
        (some { name := none, brand := none, operator := none,
                housenumber := some "5", street := some "Main St",
                city := none }) = some "5, Main St" := by
  refine ⟨rfl, ?_, rfl⟩
  intro t
  simp only [formatAddress, filterMap_truthyVal]

/-- Math.round: round half toward positive infinity. -/
def jsRound (q : ℚ) : ℤ := ⌊q + 1/2⌋

/-- Number.prototype.toFixed(1) for a nonnegative argument, following
ECMA-262: the integer `n` for which `n / 10` is closest to the argument
(the larger `n` on ties), rendered with one digit after the point. -/
def toFixed1Nonneg (q : ℚ) : String :=
  let n : ℕ := (⌊10 * q + 1/2⌋).toNat
  toString (n / 10) ++ "." ++ toString (n % 10)

/-- Number.prototype.toFixed(1): ECMA-262 renders a negative argument as
`"-"` followed by the rendering of its negation. -/
def toFixed1 (q : ℚ) : String :=
  if q < 0 then "-" ++ toFixed1Nonneg (-q) else toFixed1Nonneg q

/-- Embeds `formatDistance` (src/utils/getNearestStation.js:206-211):
distances under 0.1 miles render as whole feet, others as miles with one
decimal place. -/
def formatDistance (miles : ℚ) : String :=
  if miles < 1/10 then toString (jsRound (miles * 5280)) ++ " ft"
  else toFixed1 miles ++ " mi"

/-- Claim C9: `formatDistance` renders `round(miles * 5280)` followed by
`" ft"` when `miles < 0.1`, and otherwise renders the miles value to one
decimal place followed by `" mi"`; in particular `0.05` renders as
`"264 ft"` and `2.5` renders as `"2.5 mi"`. -/
theorem formatDistance_spec :
    (∀ m : ℚ, m < 1/10 → formatDistance m = toString (jsRound (m * 5280)) ++ " ft") ∧
    (∀ m : ℚ, ¬ m < 1/10 → formatDistance m = toFixed1 m ++ " mi") ∧
    formatDistance (1/20) = "264 ft" ∧
    formatDistance (5/2) = "2.5 mi" := by
  refine ⟨?_, ?_, ?_, ?_⟩
  · intro m hm
    simp only [formatDistance]
    rw [if_pos hm]
  · intro m hm
    simp only [formatDistance]
    rw [if_neg hm]
  · simp only [formatDistance]
    rw [if_pos (by norm_num)]
    have h : jsRound (1/20 * 5280 : ℚ) = 264 := by
      unfold jsRound
      rw [Int.floor_eq_iff]
      norm_num
    rw [h]
    decide
  · simp only [formatDistance]
    rw [if_neg (by norm_num)]
    simp only [toFixed1]
    rw [if_neg (by norm_num)]
    simp only [toFixed1Nonneg]
    have h : (⌊10 * (5/2 : ℚ) + 1/2⌋ : ℤ) = 25 := by
      rw [Int.floor_eq_iff]
      norm_num
    rw [h]
    decide

/-- Witness for `formatDistance_spec`: both guarded branches instantiated
at the spec's own example inputs. -/
theorem formatDistance_spec_witness :
    ((1 : ℚ)/20 < 1/10 ∧
      formatDistance (1/20) = toString (jsRound ((1/20) * 5280)) ++ " ft") ∧
    (¬ (5 : ℚ)/2 < 1/10 ∧ formatDistance (5/2) = toFixed1 (5/2) ++ " mi") :=
  ⟨⟨by norm_num, formatDistance_spec.1 (1/20) (by norm_num)⟩,
   ⟨by norm_num, formatDistance_spec.2.1 (5/2) (by norm_num)⟩⟩

noncomputable section

/-- Embeds `toRadians` (src/utils/getNearestStation.js:39-41). -/
def toRadians (degrees : ℝ) : ℝ := degrees * (Real.pi / 180)

/-- Math.atan2(y, x): the quadrant-aware arctangent, following ECMA-262. -/
def atan2 (y x : ℝ) : ℝ :=
  if 0 < x then Real.arctan (y / x)
  else if x < 0 ∧ 0 ≤ y then Real.arctan (y / x) + Real.pi
  else if x < 0 ∧ y < 0 then Real.arctan (y / x) - Real.pi
  else if x = 0 ∧ 0 < y then Real.pi / 2
  else if x = 0 ∧ y < 0 then -(Real.pi / 2)
  else 0

/-- Embeds `calculateDistance` (src/utils/getNearestStation.js:21-35):
the haversine great-circle distance in miles with Earth radius 3959. -/
def calculateDistance (lat1 lon1 lat2 lon2 : ℝ) : ℝ :=
  let R : ℝ := 3959
  let dLat := toRadians (lat2 - lat1)
  let dLon := toRadians (lon2 - lon1)
  let a := Real.sin (dLat / 2) * Real.sin (dLat / 2) +
    Real.cos (toRadians lat1) * Real.cos (toRadians lat2) *
      Real.sin (dLon / 2) * Real.sin (dLon / 2)
  let c := 2 * atan2 (Real.sqrt a) (Real.sqrt (1 - a))
  R * c

/-- The half-angle sine term of the haversine formula flips sign when the
two endpoints swap, so its square is unchanged. -/
lemma sin_half_toRadians_neg (x y : ℝ) :
    Real.sin (toRadians (x - y) / 2) = -Real.sin (toRadians (y - x) / 2) := by
  have h : toRadians (x - y) = -toRadians (y - x) := by
    unfold toRadians
    ring
  rw [h, neg_div, Real.sin_neg]

/-- Claim C8: the distance calculator is symmetric in its two coordinates. -/
theorem calculateDistance_symm (lat1 lon1 lat2 lon2 : ℝ) :
    calculateDistance lat1 lon1 lat2 lon2 = calculateDistance lat2 lon2 lat1 lon1 := by
  simp only [calculateDistance]
  rw [sin_half_toRadians_neg lat1 lat2, sin_half_toRadians_neg lon1 lon2]
  ring_nf

/-- A centroid as attached to an OSM way returned with `out center`. -/
structure Center where
  lat : ℝ
  lon : ℝ

/-- A raw element of the point-of-interest response: `center` is present
for ways (areas) and absent for nodes; `tags` may be absent.  The
element's own `lat`/`lon` are modelled as always-present numbers. -/
structure Element where
  id : ℤ
  lat : ℝ
  lon : ℝ
  center : Option Center
  tags : Option Tags

/-- JS `element.center?.lat || element.lat` (src/utils/getNearestStation.js:88):
the centroid latitude when it is truthy (present and nonzero), else the
element's own latitude.  Note the `||`: a centroid latitude of exactly `0`
(the equator) is falsy in JavaScript and falls through to `element.lat`. -/
def resolvedLat (e : Element) : ℝ :=
  match e.center with
  | some c => if c.lat = 0 then e.lat else c.lat
  | none => e.lat

/-- JS `element.center?.lon || element.lon` (src/utils/getNearestStation.js:89),
with the same falsy-zero fallthrough as `resolvedLat`. -/
def resolvedLon (e : Element) : ℝ :=
  match e.center with
  | some c => if c.lon = 0 then e.lon else c.lon
  | none => e.lon

/-- JS `x || dflt` on a possibly-undefined string with a truthy default:
the value when present and nonempty, else the default. -/
def jsOrStr (a : Option String) (dflt : String) : String :=
  match a with
  | some s => if s = "" then dflt else s
  | none => dflt

/-- JS `element.tags?.name || element.tags?.brand || 'Gas Station'`
(src/utils/getNearestStation.js:94). -/
def stationName (tags : Option Tags) : String :=
  jsOrStr (tags.bind Tags.name) (jsOrStr (tags.bind Tags.brand) "Gas Station")

/-- The normalized station record built for each raw element
(src/utils/getNearestStation.js:96-104). -/
structure Station where
  id : ℤ
  lat : ℝ
  lng : ℝ
  name : String
  brand : Option String
  operator : Option String
  address : Option String
  distance : ℝ
  tags : Option Tags

/-- One evaluation of the `data.elements.map` body
(src/utils/getNearestStation.js:86-104). -/
def buildStation (lat lng : ℝ) (element : Element) : Station :=
  let stationLat := resolvedLat element
  let stationLon := resolvedLon element
  let distance := calculateDistance lat lng stationLat stationLon
  { id := element.id
    lat := stationLat
    lng := stationLon
    name := stationName element.tags
    brand := element.tags.bind Tags.brand
    operator := element.tags.bind Tags.operator
    address := formatAddress element.tags
    distance := distance
    tags := element.tags }

/-- Claim C2: the code comment (src:87) says a way's center point is used
when present, and the claim says the representative coordinate is the
centroid whenever one is present.  This element has the centroid
`{lat: 0, lon: -50}` — on the equator — together with its own
`lat = 10`, `lon = 20`; because the code resolves the coordinate with
`||` rather than `??`, the falsy centroid latitude `0` is skipped. -/
def elemEquator : Element :=
  { id := 7, lat := 10, lon := 20, center := some { lat := 0, lon := -50 },
    tags := none }

/-- Claim C2, evaluation at the failing input: the centroid is present,
yet the resolved latitude is the element's own `10`, not the centroid's
`0` (while the resolved longitude does come from the centroid) — so the
station's representative coordinate is not the centroid even though one is
present.  The last conjunct confirms the half of the claim the code does
satisfy: `distance` is the distance calculator applied to the query
coordinate and the (incorrectly) resolved representative coordinate. -/
theorem resolvedLat_ignores_zero_centroid :
    elemEquator.center = some { lat := 0, lon := -50 } ∧
    resolvedLat elemEquator = 10 ∧
    resolvedLon elemEquator = -50 ∧
    (10 : ℝ) ≠ 0 ∧
    (∀ lat lng e, (buildStation lat lng e).distance =
      calculateDistance lat lng (resolvedLat e) (resolvedLon e)) := by
  refine ⟨rfl, ?_, ?_, by norm_num, fun lat lng e => rfl⟩
  · simp [resolvedLat, elemEquator]
  · norm_num [resolvedLon, elemEquator]

/-- The ordering imposed by the sort comparator
`(a, b) => a.distance - b.distance` (src/utils/getNearestStation.js:107). -/
def byDistance (a b : Station) : Prop := a.distance ≤ b.distance

instance : DecidableRel byDistance := fun a b => Real.decidableLE a.distance b.distance

instance : IsTotal Station byDistance := ⟨fun a b => le_total a.distance b.distance⟩

instance : IsTrans Station byDistance := ⟨fun _ _ _ h1 h2 => le_trans h1 h2⟩

/-- `stations.sort((a, b) => a.distance - b.distance)`
(src/utils/getNearestStation.js:107).  `Array.prototype.sort` is a stable
sort, and every stable sort by a total preorder key computes the same
list; insertion sort is that list. -/
def sortStations (stations : List Station) : List Station :=
  stations.insertionSort byDistance

/-- The subsequence of stations whose distance is exactly `d`, used to
state stability of the sort. -/
def withDistance (d : ℝ) (l : List Station) : List Station :=
  l.filter (fun s => decide (s.distance = d))

lemma withDistance_nil (d : ℝ) : withDistance d [] = [] := rfl

lemma withDistance_cons (d : ℝ) (s : Station) (l : List Station) :
    withDistance d (s :: l) =
      if s.distance = d then s :: withDistance d l else withDistance d l := by
  simp only [withDistance, List.filter_cons]
  by_cases h : s.distance = d
  · simp [h]
  · simp [h]

lemma withDistance_orderedInsert_eq (d : ℝ) (s : Station) (hs : s.distance = d)
    (l : List Station) :
    withDistance d (l.orderedInsert byDistance s) = s :: withDistance d l := by
  induction l with
  | nil => simp [List.orderedInsert, withDistance_cons, withDistance_nil, hs]
  | cons y t ih =>
    rw [List.orderedInsert]
    by_cases h : byDistance s y
    · rw [if_pos h]
      simp [withDistance_cons, hs]
    · rw [if_neg h]
      have hy : y.distance ≠ d := by
        intro hyd
        exact h (le_of_eq (hs.trans hyd.symm))
      simp [withDistance_cons, hy, ih]

lemma withDistance_orderedInsert_ne (d : ℝ) (s : Station) (hs : s.distance ≠ d)
    (l : List Station) :
    withDistance d (l.orderedInsert byDistance s) = withDistance d l := by
  induction l with
  | nil => simp [List.orderedInsert, withDistance_cons, withDistance_nil, hs]
  | cons y t ih =>
    rw [List.orderedInsert]
    by_cases h : byDistance s y
    · rw [if_pos h]
      simp [withDistance_cons, hs]
    · rw [if_neg h]
      by_cases hy : y.distance = d <;> simp [withDistance_cons, hy, ih]

lemma withDistance_insertionSort (d : ℝ) (l : List Station) :
    withDistance d (List.insertionSort byDistance l) = withDistance d l := by
  induction l with
  | nil => rfl
  | cons s t ih =>
    simp only [List.insertionSort]
    by_cases hs : s.distance = d
    · rw [withDistance_orderedInsert_eq d s hs, ih]
      simp [withDistance_cons, hs]
    · rw [withDistance_orderedInsert_ne d s hs, ih]
      simp [withDistance_cons, hs]

/-- Outcome of a `fetch(...)` call as observed by the `try` block of either
fetcher: a rejected promise, or a settled response carrying its `ok` flag
and its decoded payload (`none` when the payload cannot be parsed into the
expected shape, which makes the subsequent field accesses throw). -/
inductive FetchResult (α : Type) where
  | transportError : FetchResult α
  | httpResponse (ok : Bool) (body : Option α) : FetchResult α

/-- The decoded point-of-interest payload: its `elements` collection. -/
structure OverpassData where
  elements : List Element

/-- Embeds `fetchNearbyGasStations` (src/utils/getNearestStation.js:52-112)
with the network exchange abstracted into `resp`.  Each raw element is
mapped to a station record and the result is sorted by distance; every
failure path lands in the `catch`, which returns `[]`. -/
def fetchNearbyGasStations (lat lng : ℝ) (resp : FetchResult OverpassData) :
    List Station :=
  match resp with
  | .transportError => []
  | .httpResponse false _ => []
  | .httpResponse true none => []
  | .httpResponse true (some data) =>
    sortStations (data.elements.map (buildStation lat lng))

/-- Claim C4: on every input and response the returned sequence is sorted
by nondecreasing `distance`, and for each distance value `d` the
subsequence of returned stations at distance `d` is exactly the
subsequence of the stations built from the upstream elements in upstream
order — i.e. ties keep the order in which the upstream source returned
them. -/
theorem fetchNearbyGasStations_sorted_stable :
    (∀ (lat lng : ℝ) (resp : FetchResult OverpassData),
      List.Sorted byDistance (fetchNearbyGasStations lat lng resp)) ∧
    (∀ (lat lng : ℝ) (data : OverpassData) (d : ℝ),
      withDistance d (fetchNearbyGasStations lat lng (.httpResponse true (some data))) =
        withDistance d (data.elements.map (buildStation lat lng))) := by
  constructor
  · intro lat lng resp
    match resp with
    | .transportError => exact List.sorted_nil
    | .httpResponse false _ => exact List.sorted_nil
    | .httpResponse true none => exact List.sorted_nil
    | .httpResponse true (some data) =>
      exact List.sorted_insertionSort byDistance _
  · intro lat lng data d
    exact withDistance_insertionSort d _

/-- Embeds `findNearestStation` (src/utils/getNearestStation.js:135-140):
`stations` may be `null`/`undefined` (`none`) or an array; `userLocation`
is received but never read. -/
def findNearestStation (stations : Option (List Station))
    (userLocation : ℝ × ℝ) : Option Station :=
  match stations with
  | none => none
  | some [] => none
  | some (s :: _) => some s

/-- Claim C7: on a sequence of stations the selector returns the first
element when the sequence is nonempty and absent when it is empty (and it
performs no sorting or validation — the result is literally `head?`). -/
theorem findNearestStation_spec :
    (∀ (stations : List Station) (userLocation : ℝ × ℝ),
      findNearestStation (some stations) userLocation = stations.head?) ∧
    (∀ userLocation : ℝ × ℝ, findNearestStation none userLocation = none) := by
  constructor
  · intro stations u
    cases stations <;> rfl
  · intro u
    rfl

/-- Claim C10: the selector's result does not depend on the user-location
argument at all. -/
theorem findNearestStation_ignores_userLocation
    (stations : Option (List Station)) (u1 u2 : ℝ × ℝ) :
    findNearestStation stations u1 = findNearestStation stations u2 := rfl

/-- A turn-by-turn step record; it is passed through unmodified and none
of its fields are ever read by the module. -/
structure Step where
  instruction : String

/-- `route.geometry`: the coordinate list in (longitude, latitude) order
as received from the routing service. -/
structure RouteGeometry where
  coordinates : List (ℝ × ℝ)

/-- One entry of `route.legs`. -/
structure RouteLeg where
  steps : List Step

/-- One route alternative of the routing payload: geometry, distance in
meters, duration in seconds, and legs. -/
structure OSRMRoute where
  geometry : RouteGeometry
  distance : ℝ
  duration : ℝ
  legs : List RouteLeg

/-- The decoded routing payload: its `code` field and `routes` collection. -/
structure RouteData where
  code : String
  routes : List OSRMRoute

/-- The normalized route value `fetchRoute` resolves with
(src/utils/getNearestStation.js:169-175): coordinates in (latitude,
longitude) order, distance in miles, duration in minutes. -/
structure Route where
  coordinates : List (ℝ × ℝ)
  distance : ℝ
  duration : ℝ
  steps : List Step

/-- `route.legs[0]?.steps || []` (src/utils/getNearestStation.js:174): the
first leg's steps when a leg exists (an empty steps array is truthy in
JavaScript), else `[]`. -/
def firstLegSteps (legs : List RouteLeg) : List Step :=
  match legs with
  | [] => []
  | leg :: _ => leg.steps

/-- Embeds `fetchRoute` (src/utils/getNearestStation.js:148-181) with the
network exchange abstracted into `resp`.  The `!response.ok` throw, the
`code !== 'Ok' || no routes` throw, and a parse failure all land in the
`catch`, which returns `null`. -/
def fetchRoute (resp : FetchResult RouteData) : Option Route :=
  match resp with
  | .transportError => none
  | .httpResponse false _ => none
  | .httpResponse true none => none
  | .httpResponse true (some data) =>
    if data.code = "Ok" then
      match data.routes with
      | [] => none
      | route :: _ =>
        some { coordinates := route.geometry.coordinates.map (fun coord => (coord.2, coord.1))
               distance := route.distance / 1609.34
               duration := route.duration / 60
               steps := firstLegSteps route.legs }
    else none

/-- Claim C3: on a successful response (`ok` transport, code `"Ok"`,
nonempty routes) the result is the first route alternative with every
coordinate pair axis-swapped from (longitude, latitude) to (latitude,
longitude), distance divided by 1609.34, duration divided by 60, and the
steps taken from the first leg only — the empty sequence when there are
no legs. -/
theorem fetchRoute_success :
    (∀ (route : OSRMRoute) (rest : List OSRMRoute),
      fetchRoute (.httpResponse true (some { code := "Ok", routes := route :: rest })) =
        some { coordinates := route.geometry.coordinates.map (fun coord => (coord.2, coord.1)),
               distance := route.distance / 1609.34,
               duration := route.duration / 60,
               steps := firstLegSteps route.legs }) ∧
    firstLegSteps [] = [] ∧
    (∀ (leg : RouteLeg) (legs : List RouteLeg), firstLegSteps (leg :: legs) = leg.steps) :=
  ⟨fun _ _ => rfl, rfl, fun _ _ => rfl⟩

/-- Claim C6: `fetchRoute` returns absent exactly when the transport
fails, the response's `code` is not the literal `"Ok"`, or the routes
collection is empty; on every well-formed successful response it returns
a route value.  The same absent value covers both "request failed" and
"no route exists". -/
theorem fetchRoute_none_iff :
    (∀ (ok : Bool) (data : RouteData),
      fetchRoute (.httpResponse ok (some data)) = none ↔
        ok = false ∨ data.code ≠ "Ok" ∨ data.routes = []) ∧
    fetchRoute .transportError = none := by
  constructor
  · intro ok data
    cases ok
    · simp [fetchRoute]
    · by_cases hc : data.code = "Ok"
      · cases hr : data.routes with
        | nil => simp [fetchRoute, hc, hr]
        | cons r rs => simp [fetchRoute, hc, hr]
      · simp [fetchRoute, hc]
  · rfl

/-- Claim C5: both fetchers collapse every failure category — transport
failure, non-success HTTP status, malformed payload — into their uniform
"no result" value (`[]` for the station fetcher, absent for the route
fetcher); being total functions into those types, they propagate no
error. -/
theorem fetch_failures_collapse :
    (∀ lat lng : ℝ,
      fetchNearbyGasStations lat lng .transportError = [] ∧
      (∀ body, fetchNearbyGasStations lat lng (.httpResponse false body) = []) ∧
      fetchNearbyGasStations lat lng (.httpResponse true none) = []) ∧
    (fetchRoute .transportError = none ∧
      (∀ body, fetchRoute (.httpResponse false body) = none) ∧
      fetchRoute (.httpResponse true none) = none) :=
  ⟨fun _ _ => ⟨rfl, fun _ => rfl, rfl⟩, ⟨rfl, fun _ => rfl, rfl⟩⟩

end

end MopedTracker
